import Mathlib

/-!
# Shallow embedding of the `socks5-proto` / `socks5-server` core

Byte streams are modelled as `List Nat` (each element a byte value `< 256`;
the bound is carried as a hypothesis where it matters).  Every async decoder
`read_from` of the Rust source becomes a pure function
`List Nat → Except E α × List Nat`: the second component is the part of the
stream that has not been consumed when the function returns (tokio streams
are left at their read position both on success and on error).  Every
`write_to_buf` becomes a function producing the `List Nat` of appended bytes.

Rust `u8` / `u16` / `usize` values are modelled as `Nat`; `usize` arithmetic
that can wrap is made explicit (`usizeSub`).  A Rust `String` is modelled by
its UTF-8 byte sequence together with the invariant that the sequence is
valid UTF-8 (`validUtf8`), which is exactly the check `String::from_utf8`
performs in `address.rs`.
-/

namespace Socks5

/-- `SOCKS_VERSION` from `socks5-proto/src/lib.rs`. -/
def socksVersion : Nat := 0x05

/-- `SUBNEGOTIATION_VERSION` from `socks5-proto/src/handshake/password/mod.rs`. -/
def subnegotiationVersion : Nat := 0x01

/-- The transport-level (`std::io::Error`) failures the decoders of the source
can produce, one constructor per `Error::new` site (the constructor records
the `ErrorKind` and the data interpolated into the message):
* `unexpectedEof` — a `read_u8` / `read_exact` hitting end of stream;
* `unsupportedVersion v` — `handshake/response.rs`: `ErrorKind::Unsupported`,
  message `"Unsupported SOCKS version {v}"`;
* `unsupportedSubnegVersion v` — `password/{request,response}.rs`:
  `ErrorKind::Unsupported`;
* `unsupportedAddressType t` — `address.rs`: `ErrorKind::Unsupported`,
  message `"Unsupported address type {t}"` (this is the error the frame
  decoders map to their `InvalidAddressType…` protocol errors);
* `invalidAddressEncoding` — `address.rs`: `ErrorKind::InvalidData`,
  `String::from_utf8` failed on the domain label;
* `invalidSubnegStatus c` — `password/response.rs`: `ErrorKind::InvalidData`. -/
inductive IoError
  | unexpectedEof
  | unsupportedVersion (version : Nat)
  | unsupportedSubnegVersion (version : Nat)
  | unsupportedAddressType (addressType : Nat)
  | invalidAddressEncoding
  | invalidSubnegStatus (status : Nat)
  deriving DecidableEq, Repr

/-- `Command` from `socks5-proto/src/command.rs`. -/
inductive Command
  | connect
  | bind
  | associate
  deriving DecidableEq, Repr

namespace Command

/-- `impl From<Command> for u8`. -/
def toU8 : Command → Nat
  | connect => 0x01
  | bind => 0x02
  | associate => 0x03

/-- `impl TryFrom<u8> for Command` (the error case is the unknown byte; the
callers in `request.rs` only use the offending byte, so the result is an
`Option`). -/
def tryFrom : Nat → Option Command
  | 0x01 => some .connect
  | 0x02 => some .bind
  | 0x03 => some .associate
  | _ => none

end Command

/-- `Reply` from `socks5-proto/src/reply.rs`. -/
inductive Reply
  | succeeded
  | generalFailure
  | connectionNotAllowed
  | networkUnreachable
  | hostUnreachable
  | connectionRefused
  | ttlExpired
  | commandNotSupported
  | addressTypeNotSupported
  deriving DecidableEq, Repr

namespace Reply

/-- `impl From<Reply> for u8`. -/
def toU8 : Reply → Nat
  | succeeded => 0x00
  | generalFailure => 0x01
  | connectionNotAllowed => 0x02
  | networkUnreachable => 0x03
  | hostUnreachable => 0x04
  | connectionRefused => 0x05
  | ttlExpired => 0x06
  | commandNotSupported => 0x07
  | addressTypeNotSupported => 0x08

/-- `impl TryFrom<u8> for Reply`. -/
def tryFrom : Nat → Option Reply
  | 0x00 => some .succeeded
  | 0x01 => some .generalFailure
  | 0x02 => some .connectionNotAllowed
  | 0x03 => some .networkUnreachable
  | 0x04 => some .hostUnreachable
  | 0x05 => some .connectionRefused
  | 0x06 => some .ttlExpired
  | 0x07 => some .commandNotSupported
  | 0x08 => some .addressTypeNotSupported
  | _ => none

end Reply

/-- `ProtocolError` from `socks5-proto/src/error.rs`.  Handshake methods are
transparent single-byte wrappers (`handshake/method.rs`), so a `Method` is a
`Nat` and the offered-method list a `List Nat`. -/
inductive ProtocolError
  | protocolVersion (version : Nat)
  | noAcceptableHandshakeMethod (version : Nat) (chosenMethod : Nat) (methods : List Nat)
  | invalidCommand (version : Nat) (command : Nat)
  | invalidReply (version : Nat) (reply : Nat)
  | invalidAddressTypeInRequest (version : Nat) (command : Command) (addressType : Nat)
  | invalidAddressTypeInResponse (version : Nat) (reply : Reply) (addressType : Nat)
  | invalidAddressTypeInUdpHeader (frag : Nat) (addressType : Nat)
  deriving DecidableEq, Repr

/-- `Error` from `socks5-proto/src/error.rs`. -/
inductive Error
  | protocol (e : ProtocolError)
  | io (e : IoError)
  deriving DecidableEq, Repr

/-- `AsyncReadExt::read_exact` into a buffer of `n` bytes: succeeds returning
the first `n` bytes and the remainder, fails with `UnexpectedEof` when fewer
than `n` bytes remain. -/
def readExact (n : Nat) (s : List Nat) : Option (List Nat × List Nat) :=
  if n ≤ s.length then some (s.take n, s.drop n) else none

theorem readExact_append (xs rest : List Nat) :
    readExact xs.length (xs ++ rest) = some (xs, rest) := by
  simp [readExact, List.take_left, List.drop_left]

/-- UTF-8 continuation byte: `0x80..=0xBF`. -/
def contOk (b : Nat) : Bool := 0x80 ≤ b && b ≤ 0xBF

/-- Validity of a byte sequence as UTF-8, exactly the check performed by
`String::from_utf8` in `Address::read_from` (well-formed sequence lengths,
no overlong encodings, no surrogates, max scalar `0x10FFFF`). -/
def validUtf8 : List Nat → Bool
  | [] => true
  | b :: rest =>
    if b ≤ 0x7F then validUtf8 rest
    else if 0xC2 ≤ b ∧ b ≤ 0xDF then
      match rest with
      | b1 :: rest => contOk b1 && validUtf8 rest
      | _ => false
    else if b = 0xE0 then
      match rest with
      | b1 :: b2 :: rest => (0xA0 ≤ b1 && b1 ≤ 0xBF) && contOk b2 && validUtf8 rest
      | _ => false
    else if (0xE1 ≤ b ∧ b ≤ 0xEC) ∨ b = 0xEE ∨ b = 0xEF then
      match rest with
      | b1 :: b2 :: rest => contOk b1 && contOk b2 && validUtf8 rest
      | _ => false
    else if b = 0xED then
      match rest with
      | b1 :: b2 :: rest => (0x80 ≤ b1 && b1 ≤ 0x9F) && contOk b2 && validUtf8 rest
      | _ => false
    else if b = 0xF0 then
      match rest with
      | b1 :: b2 :: b3 :: rest =>
        (0x90 ≤ b1 && b1 ≤ 0xBF) && contOk b2 && contOk b3 && validUtf8 rest
      | _ => false
    else if 0xF1 ≤ b ∧ b ≤ 0xF3 then
      match rest with
      | b1 :: b2 :: b3 :: rest => contOk b1 && contOk b2 && contOk b3 && validUtf8 rest
      | _ => false
    else if b = 0xF4 then
      match rest with
      | b1 :: b2 :: b3 :: rest =>
        (0x80 ≤ b1 && b1 ≤ 0x8F) && contOk b2 && contOk b3 && validUtf8 rest
      | _ => false
    else false

/-- `Address` from `socks5-proto/src/address.rs`.

`SocketAddress(SocketAddr::V4)` is modelled by its four IP octets and port;
`SocketAddress(SocketAddr::V6)` by its eight 16-bit segments and port (the
`flowinfo` / `scope_id` fields of `SocketAddrV6` never touch the wire);
`DomainAddress(String, u16)` by the string's UTF-8 bytes and port. -/
inductive Address
  | v4 (a b c d : Nat) (port : Nat)
  | v6 (s0 s1 s2 s3 s4 s5 s6 s7 : Nat) (port : Nat)
  | domain (label : List Nat) (port : Nat)
  deriving DecidableEq, Repr

namespace Address

/-- The type bounds of the Rust representation: octets are `u8`, segments and
ports `u16`, a domain label is the byte content of a `String` whose length
fits the wire's one-byte length prefix. -/
def Wf : Address → Prop
  | v4 a b c d port => a < 256 ∧ b < 256 ∧ c < 256 ∧ d < 256 ∧ port < 65536
  | v6 s0 s1 s2 s3 s4 s5 s6 s7 port =>
    s0 < 65536 ∧ s1 < 65536 ∧ s2 < 65536 ∧ s3 < 65536 ∧ s4 < 65536 ∧ s5 < 65536 ∧
      s6 < 65536 ∧ s7 < 65536 ∧ port < 65536
  | domain label port =>
    label.length ≤ 255 ∧ (∀ b ∈ label, b < 256) ∧ validUtf8 label = true ∧ port < 65536

instance : DecidablePred Wf := by
  intro a
  cases a with
  | v4 a b c d port => exact inferInstanceAs (Decidable (_ ∧ _))
  | v6 s0 s1 s2 s3 s4 s5 s6 s7 port => exact inferInstanceAs (Decidable (_ ∧ _))
  | domain label port => exact inferInstanceAs (Decidable (_ ∧ _))

/-- `Address::read_from` (`address.rs:44-113`).  The three error exits are the
ones of the source: unknown type byte, UTF-8 rejection of the domain label,
and end-of-stream inside a read. -/
def read_from (s : List Nat) : Except IoError Address × List Nat :=
  match s with
  | [] => (.error .unexpectedEof, [])
  | atyp :: s =>
    match atyp with
    | 0x01 =>
      match readExact 6 s with
      | none => (.error .unexpectedEof, [])
      | some (body, rest) =>
        match body with
        | [a, b, c, d, hi, lo] => (.ok (.v4 a b c d (hi * 256 + lo)), rest)
        | _ => (.error .unexpectedEof, [])
    | 0x03 =>
      match s with
      | [] => (.error .unexpectedEof, [])
      | len :: s =>
        match readExact (len + 2) s with
        | none => (.error .unexpectedEof, [])
        | some (body, rest) =>
          let label := body.take len
          let port :=
            match body.drop len with
            | [hi, lo] => hi * 256 + lo
            | _ => 0
          if validUtf8 label then (.ok (.domain label port), rest)
          else (.error .invalidAddressEncoding, rest)
    | 0x04 =>
      match readExact 18 s with
      | none => (.error .unexpectedEof, [])
      | some (body, rest) =>
        match body with
        | [h0, l0, h1, l1, h2, l2, h3, l3, h4, l4, h5, l5, h6, l6, h7, l7, hi, lo] =>
          (.ok (.v6 (h0 * 256 + l0) (h1 * 256 + l1) (h2 * 256 + l2) (h3 * 256 + l3)
            (h4 * 256 + l4) (h5 * 256 + l5) (h6 * 256 + l6) (h7 * 256 + l7)
            (hi * 256 + lo)), rest)
        | _ => (.error .unexpectedEof, [])
    | atyp => (.error (.unsupportedAddressType atyp), s)

/-- `Address::write_to_buf` (`address.rs:115-138`).  `put_u16` writes big
endian; `addr.len() as u8` truncates, hence the `% 256`. -/
def write_to_buf : Address → List Nat
  | .v4 a b c d port => [0x01, a, b, c, d, port / 256, port % 256]
  | .v6 s0 s1 s2 s3 s4 s5 s6 s7 port =>
    [0x04, s0 / 256, s0 % 256, s1 / 256, s1 % 256, s2 / 256, s2 % 256, s3 / 256, s3 % 256,
      s4 / 256, s4 % 256, s5 / 256, s5 % 256, s6 / 256, s6 % 256, s7 / 256, s7 % 256,
      port / 256, port % 256]
  | .domain label port =>
    0x03 :: label.length % 256 :: (label ++ [port / 256, port % 256])

/-- `Address::serialized_len` (`address.rs:140-148`). -/
def serialized_len : Address → Nat
  | .v4 _ _ _ _ _ => 1 + 6
  | .v6 _ _ _ _ _ _ _ _ _ => 1 + 18
  | .domain label _ => 1 + (1 + label.length + 2)

theorem read_write_addr (a : Address) (h : a.Wf) (rest : List Nat) :
    Address.read_from (a.write_to_buf ++ rest) = (.ok a, rest) := by
  cases a with
  | v4 a b c d port =>
    simp only [write_to_buf, read_from, List.cons_append, readExact, List.length_cons,
      List.take, List.drop]
    norm_num
    omega
  | v6 s0 s1 s2 s3 s4 s5 s6 s7 port =>
    obtain ⟨h0, h1, h2, h3, h4, h5, h6, h7, hp⟩ := h
    simp only [write_to_buf, read_from, List.cons_append, readExact, List.length_cons,
      List.take, List.drop]
    norm_num
    refine ⟨?_, ?_, ?_, ?_, ?_, ?_, ?_, ?_, ?_⟩ <;> omega
  | domain label port =>
    obtain ⟨hlen, _, hutf, hport⟩ := h
    have hmod : label.length % 256 = label.length := Nat.mod_eq_of_lt (by omega)
    have hkey : readExact (label.length % 256 + 2)
        ((label ++ [port / 256, port % 256]) ++ rest)
        = some (label ++ [port / 256, port % 256], rest) := by
      rw [hmod]
      have := readExact_append (label ++ [port / 256, port % 256]) rest
      simpa [List.length_append] using this
    have htake : (label ++ [port / 256, port % 256]).take (label.length % 256) = label := by
      rw [hmod]; exact List.take_left label _
    have hdrop : (label ++ [port / 256, port % 256]).drop (label.length % 256)
        = [port / 256, port % 256] := by
      rw [hmod]; exact List.drop_left label _
    simp only [write_to_buf, read_from, List.cons_append, List.append_assoc] at *
    rw [hkey]
    simp only [htake, hdrop, hutf, if_true]
    have : port / 256 * 256 + port % 256 = port := by omega
    rw [this]

theorem length_write_addr (a : Address) : a.write_to_buf.length = a.serialized_len := by
  cases a <;> simp [write_to_buf, serialized_len] <;> omega

end Address

/-- `Request` from `socks5-proto/src/request.rs`. -/
structure Request where
  command : Command
  address : Address
  deriving DecidableEq, Repr

namespace Request

/-- `Request::read_from` (`request.rs:26-58`).  The version check precedes the
command byte; the reserved byte is read and discarded; address-decode errors
are mapped as in the source: the unknown-address-type failure becomes
`InvalidAddressTypeInRequest` carrying the already parsed fields, every other
failure is surfaced as `Error::Io`. -/
def read_from (s : List Nat) : Except Error Request × List Nat :=
  match s with
  | [] => (.error (.io .unexpectedEof), [])
  | ver :: s =>
    if ver = socksVersion then
      match s with
      | [] => (.error (.io .unexpectedEof), [])
      | cmdByte :: s =>
        match Command.tryFrom cmdByte with
        | none => (.error (.protocol (.invalidCommand ver cmdByte)), s)
        | some cmd =>
          match s with
          | [] => (.error (.io .unexpectedEof), [])
          | _ :: s =>
            match Address.read_from s with
            | (.ok addr, s) => (.ok ⟨cmd, addr⟩, s)
            | (.error (.unsupportedAddressType code), s) =>
              (.error (.protocol (.invalidAddressTypeInRequest ver cmd code)), s)
            | (.error e, s) => (.error (.io e), s)
    else (.error (.protocol (.protocolVersion ver)), s)

/-- `Request::write_to_buf` (`request.rs:71-76`). -/
def write_to_buf (r : Request) : List Nat :=
  socksVersion :: r.command.toU8 :: 0x00 :: r.address.write_to_buf

/-- `Request::serialized_len` (`request.rs:78-80`). -/
def serialized_len (r : Request) : Nat :=
  1 + 1 + 1 + r.address.serialized_len

end Request

/-- `Response` from `socks5-proto/src/response.rs`. -/
structure Response where
  reply : Reply
  address : Address
  deriving DecidableEq, Repr

namespace Response

/-- `Response::read_from` (`response.rs:26-58`). -/
def read_from (s : List Nat) : Except Error Response × List Nat :=
  match s with
  | [] => (.error (.io .unexpectedEof), [])
  | ver :: s =>
    if ver = socksVersion then
      match s with
      | [] => (.error (.io .unexpectedEof), [])
      | repByte :: s =>
        match Reply.tryFrom repByte with
        | none => (.error (.protocol (.invalidReply ver repByte)), s)
        | some rep =>
          match s with
          | [] => (.error (.io .unexpectedEof), [])
          | _ :: s =>
            match Address.read_from s with
            | (.ok addr, s) => (.ok ⟨rep, addr⟩, s)
            | (.error (.unsupportedAddressType code), s) =>
              (.error (.protocol (.invalidAddressTypeInResponse ver rep code)), s)
            | (.error e, s) => (.error (.io e), s)
    else (.error (.protocol (.protocolVersion ver)), s)

/-- `Response::write_to_buf` (`response.rs:71-76`). -/
def write_to_buf (r : Response) : List Nat :=
  socksVersion :: r.reply.toU8 :: 0x00 :: r.address.write_to_buf

/-- `Response::serialized_len` (`response.rs:78-80`). -/
def serialized_len (r : Response) : Nat :=
  1 + 1 + 1 + r.address.serialized_len

end Response

/-- `UdpHeader` from `socks5-proto/src/udp.rs`. -/
structure UdpHeader where
  frag : Nat
  address : Address
  deriving DecidableEq, Repr

namespace UdpHeader

/-- `UdpHeader::read_from` (`udp.rs:26-45`): two reserved bytes are read and
ignored, then the fragment byte, then the address.  (Fewer than three
available bytes make the `read_exact`/`read_u8` prefix fail with
`UnexpectedEof`, hence the single fall-through case.) -/
def read_from (s : List Nat) : Except Error UdpHeader × List Nat :=
  match s with
  | _ :: _ :: frag :: s =>
    match Address.read_from s with
    | (.ok addr, s) => (.ok ⟨frag, addr⟩, s)
    | (.error (.unsupportedAddressType code), s) =>
      (.error (.protocol (.invalidAddressTypeInUdpHeader frag code)), s)
    | (.error e, s) => (.error (.io e), s)
  | _ => (.error (.io .unexpectedEof), [])

/-- `UdpHeader::write_to_buf` (`udp.rs:58-62`). -/
def write_to_buf (h : UdpHeader) : List Nat :=
  0x00 :: 0x00 :: h.frag :: h.address.write_to_buf

/-- `UdpHeader::serialized_len` (`udp.rs:64-66`). -/
def serialized_len (h : UdpHeader) : Nat :=
  2 + 1 + h.address.serialized_len

end UdpHeader

/-- `handshake::Request` (`handshake/request.rs`), the method-list frame.
`Method` is a transparent `u8` wrapper, so the list is a `List Nat`. -/
structure HandshakeRequest where
  methods : List Nat
  deriving DecidableEq, Repr

namespace HandshakeRequest

/-- `handshake::Request::read_from` (`handshake/request.rs:29-56`): version
check, one count byte, then exactly that many method bytes (the source's
pointer-cast from `Vec<u8>` to `Vec<Method>` is the identity on bytes). -/
def read_from (s : List Nat) : Except Error HandshakeRequest × List Nat :=
  match s with
  | [] => (.error (.io .unexpectedEof), [])
  | ver :: s =>
    if ver = socksVersion then
      match s with
      | [] => (.error (.io .unexpectedEof), [])
      | mlen :: s =>
        match readExact mlen s with
        | none => (.error (.io .unexpectedEof), [])
        | some (methods, rest) => (.ok ⟨methods⟩, rest)
    else (.error (.protocol (.protocolVersion ver)), s)

/-- `handshake::Request::write_to_buf` (`handshake/request.rs:69-75`). -/
def write_to_buf (r : HandshakeRequest) : List Nat :=
  socksVersion :: r.methods.length % 256 :: r.methods

/-- `handshake::Request::serialized_len` (`handshake/request.rs:77-79`). -/
def serialized_len (r : HandshakeRequest) : Nat :=
  1 + 1 + r.methods.length

end HandshakeRequest

/-- `HandshakeResponse` (`handshake/response.rs`), the method-selection frame. -/
structure HandshakeResponse where
  method : Nat
  deriving DecidableEq, Repr

namespace HandshakeResponse

/-- `HandshakeResponse::read_from` (`handshake/response.rs:25-41`).  Unlike the
other version-checked decoders this one fails with a plain
`std::io::Error` of kind `Unsupported` (not a `ProtocolError`). -/
def read_from (s : List Nat) : Except IoError HandshakeResponse × List Nat :=
  match s with
  | [] => (.error .unexpectedEof, [])
  | ver :: s =>
    if ver = socksVersion then
      match s with
      | [] => (.error .unexpectedEof, [])
      | m :: s => (.ok ⟨m⟩, s)
    else (.error (.unsupportedVersion ver), s)

/-- `HandshakeResponse::write_to_buf` (`handshake/response.rs:52-55`). -/
def write_to_buf (r : HandshakeResponse) : List Nat :=
  [socksVersion, r.method]

/-- `HandshakeResponse::serialized_len` (`handshake/response.rs:57-59`). -/
def serialized_len (_ : HandshakeResponse) : Nat := 2

end HandshakeResponse

/-- `password::Request` (`handshake/password/request.rs`). -/
structure PasswordRequest where
  username : List Nat
  password : List Nat
  deriving DecidableEq, Repr

namespace PasswordRequest

/-- `password::Request::read_from` (`password/request.rs:26-51`): after the
sub-negotiation version byte, the source reads `ulen`, then `ulen + 1` bytes
at once (username plus the password-length byte), then `plen` bytes. -/
def read_from (s : List Nat) : Except IoError PasswordRequest × List Nat :=
  match s with
  | [] => (.error .unexpectedEof, [])
  | ver :: s =>
    if ver = subnegotiationVersion then
      match s with
      | [] => (.error .unexpectedEof, [])
      | ulen :: s =>
        match readExact (ulen + 1) s with
        | none => (.error .unexpectedEof, [])
        | some (buf, s) =>
          let plen :=
            match buf.drop ulen with
            | [x] => x
            | _ => 0
          let username := buf.take ulen
          match readExact plen s with
          | none => (.error .unexpectedEof, [])
          | some (password, rest) => (.ok ⟨username, password⟩, rest)
    else (.error (.unsupportedSubnegVersion ver), s)

/-- `password::Request::write_to_buf` (`password/request.rs:62-70`). -/
def write_to_buf (r : PasswordRequest) : List Nat :=
  subnegotiationVersion :: r.username.length % 256 ::
    (r.username ++ r.password.length % 256 :: r.password)

/-- `password::Request::serialized_len` (`password/request.rs:72-74`). -/
def serialized_len (r : PasswordRequest) : Nat :=
  3 + r.username.length + r.password.length

end PasswordRequest

/-- `password::Response` (`handshake/password/response.rs`). -/
structure PasswordResponse where
  status : Bool
  deriving DecidableEq, Repr

namespace PasswordResponse

/-- `password::Response::read_from` (`password/response.rs:28-53`): status byte
`0xFF` means failure, `0x00` success, anything else is an `InvalidData`
error. -/
def read_from (s : List Nat) : Except IoError PasswordResponse × List Nat :=
  match s with
  | [] => (.error .unexpectedEof, [])
  | ver :: s =>
    if ver = subnegotiationVersion then
      match s with
      | [] => (.error .unexpectedEof, [])
      | 0xff :: s => (.ok ⟨false⟩, s)
      | 0x00 :: s => (.ok ⟨true⟩, s)
      | code :: s => (.error (.invalidSubnegStatus code), s)
    else (.error (.unsupportedSubnegVersion ver), s)

/-- `password::Response::write_to_buf` (`password/response.rs:64-72`). -/
def write_to_buf (r : PasswordResponse) : List Nat :=
  [subnegotiationVersion, if r.status then 0x00 else 0xff]

/-- `password::Response::serialized_len` (`password/response.rs:74-76`). -/
def serialized_len (_ : PasswordResponse) : Nat := 2

end PasswordResponse

theorem Command.tryFrom_toU8_command (c : Command) : Command.tryFrom c.toU8 = some c := by
  cases c <;> rfl

theorem Reply.tryFrom_toU8_reply (r : Reply) : Reply.tryFrom r.toU8 = some r := by
  cases r <;> rfl

theorem Request.read_write_request (r : Request) (h : r.address.Wf) (rest : List Nat) :
    Request.read_from (r.write_to_buf ++ rest) = (.ok r, rest) := by
  obtain ⟨cmd, addr⟩ := r
  simp only [write_to_buf, read_from, List.cons_append, socksVersion, if_true,
    Command.tryFrom_toU8_command, Address.read_write_addr addr h rest]

theorem Response.read_write_response (r : Response) (h : r.address.Wf) (rest : List Nat) :
    Response.read_from (r.write_to_buf ++ rest) = (.ok r, rest) := by
  obtain ⟨rep, addr⟩ := r
  simp only [write_to_buf, read_from, List.cons_append, socksVersion, if_true,
    Reply.tryFrom_toU8_reply, Address.read_write_addr addr h rest]

theorem UdpHeader.read_write_udp (u : UdpHeader) (h : u.address.Wf) (rest : List Nat) :
    UdpHeader.read_from (u.write_to_buf ++ rest) = (.ok u, rest) := by
  obtain ⟨frag, addr⟩ := u
  simp only [write_to_buf, read_from, List.cons_append, Address.read_write_addr addr h rest]

theorem HandshakeRequest.read_write_request_handshake_request (r : HandshakeRequest)
    (h : r.methods.length ≤ 255) (rest : List Nat) :
    HandshakeRequest.read_from (r.write_to_buf ++ rest) = (.ok r, rest) := by
  obtain ⟨ms⟩ := r
  have h' : ms.length ≤ 255 := h
  have hmod : ms.length % 256 = ms.length := Nat.mod_eq_of_lt (by omega)
  simp only [write_to_buf, read_from, List.cons_append, socksVersion, if_true, hmod,
    readExact_append]

theorem HandshakeResponse.read_write_response_handshake_response (r : HandshakeResponse) (rest : List Nat) :
    HandshakeResponse.read_from (r.write_to_buf ++ rest) = (.ok r, rest) := by
  obtain ⟨m⟩ := r
  simp [write_to_buf, read_from, socksVersion]

theorem PasswordRequest.read_write_request_password_request (r : PasswordRequest)
    (hu : r.username.length ≤ 255) (hp : r.password.length ≤ 255) (rest : List Nat) :
    PasswordRequest.read_from (r.write_to_buf ++ rest) = (.ok r, rest) := by
  obtain ⟨u, p⟩ := r
  have hu' : u.length ≤ 255 := hu
  have hp' : p.length ≤ 255 := hp
  have hmu : u.length % 256 = u.length := Nat.mod_eq_of_lt (by omega)
  have hmp : p.length % 256 = p.length := Nat.mod_eq_of_lt (by omega)
  have hkey : readExact (u.length % 256 + 1) (u ++ (p.length :: (p ++ rest)))
      = some (u ++ [p.length], p ++ rest) := by
    rw [hmu]
    have := readExact_append (u ++ [p.length]) (p ++ rest)
    simpa [List.length_append, List.append_assoc] using this
  have htake : (u ++ [p.length]).take (u.length % 256) = u := by
    rw [hmu]; exact List.take_left u _
  have hdrop : (u ++ [p.length]).drop (u.length % 256) = [p.length] := by
    rw [hmu]; exact List.drop_left u _
  simp only [write_to_buf, read_from, List.cons_append, List.append_assoc,
    subnegotiationVersion, if_true, hmp]
  rw [hkey]
  simp only [htake, hdrop, readExact_append]

theorem PasswordResponse.read_write_response_password_response (r : PasswordResponse) (rest : List Nat) :
    PasswordResponse.read_from (r.write_to_buf ++ rest) = (.ok r, rest) := by
  obtain ⟨st⟩ := r
  cases st <;> simp [write_to_buf, read_from, subnegotiationVersion]


theorem Request.length_write_request (r : Request) :
    r.write_to_buf.length = r.serialized_len := by
  simp [write_to_buf, serialized_len, Address.length_write_addr]
  omega

theorem Response.length_write_response (r : Response) :
    r.write_to_buf.length = r.serialized_len := by
  simp [write_to_buf, serialized_len, Address.length_write_addr]
  omega

theorem UdpHeader.length_write_udp (h : UdpHeader) :
    h.write_to_buf.length = h.serialized_len := by
  simp [write_to_buf, serialized_len, Address.length_write_addr]
  omega

theorem HandshakeRequest.length_write_request_handshake_request (r : HandshakeRequest) :
    r.write_to_buf.length = r.serialized_len := by
  simp [write_to_buf, serialized_len]
  omega

theorem HandshakeResponse.length_write_response_handshake_response (r : HandshakeResponse) :
    r.write_to_buf.length = r.serialized_len := by
  simp [write_to_buf, serialized_len]

theorem PasswordRequest.length_write_request_password_request (r : PasswordRequest) :
    r.write_to_buf.length = r.serialized_len := by
  simp [write_to_buf, serialized_len]
  omega

theorem PasswordResponse.length_write_response_password_response (r : PasswordResponse) :
    r.write_to_buf.length = r.serialized_len := by
  simp [write_to_buf, serialized_len]

/-! ## Server side (`socks5-server`)

A `tokio::net::TcpStream` is opaque to the negotiation logic; the model
gives it an identity and records the bytes the server has written to it, so
that "the raw transport is surrendered back to the caller" is observable. -/

/-- Model of `tokio::net::TcpStream` as used by the negotiation driver: an
identity plus the bytes written so far. -/
structure TcpStream where
  id : Nat
  sent : List Nat
  deriving DecidableEq, Repr

/-- Model of the duplex transport during authentication: the unread incoming
bytes and the outgoing stream. -/
structure Transport where
  input : List Nat
  stream : TcpStream
  deriving DecidableEq, Repr

/-- A successful `write_all` appends the frame to the outgoing stream. -/
def Transport.writeAll (t : Transport) (bs : List Nat) : Transport :=
  { t with stream := { t.stream with sent := t.stream.sent ++ bs } }

/-- The `Auth` contract (`socks5-server/src/auth.rs`): a chosen method byte
plus the method-specific sub-negotiation, which may consume input, write
output and produce the associated output value. -/
structure AuthAdaptor (O : Type) where
  chosenMethod : Nat
  execute : Transport → O × Transport

/-- `Authenticated` (`connection/mod.rs:140`): the `NeedCommand` stage. -/
structure Authenticated where
  transport : Transport
  deriving DecidableEq, Repr

/-- `HandshakeMethod::UNACCEPTABLE` / `Method::UNACCEPTABLE` (0xFF). -/
def methodUnacceptable : Nat := 0xff

/-- `IncomingConnection::authenticate` (`connection/mod.rs:39-72`, identical
logic in `command/mod.rs:28-60` as `Authenticating::authenticate`): read the
method-list frame; if it offers the contract's chosen method, write
`MethodResponse(chosen)`, run the contract, and yield the `NeedCommand`
stage with the contract's output; otherwise write `MethodResponse(0xFF)` and
surrender the transport with `NoAcceptableHandshakeMethod`.  (The model's
writes always succeed; the read failure path surrenders transport and
error as in the source.) -/
def IncomingConnection.authenticate {O : Type} (auth : AuthAdaptor O) (t : Transport) :
    Except (Transport × Error) (Authenticated × O) :=
  match HandshakeRequest.read_from t.input with
  | (.error e, rest) => .error ({ t with input := rest }, e)
  | (.ok req, rest) =>
    let t := { t with input := rest }
    let chosen := auth.chosenMethod
    if req.methods.contains chosen then
      let t := t.writeAll (HandshakeResponse.write_to_buf ⟨chosen⟩)
      let (output, t) := auth.execute t
      .ok (⟨t⟩, output)
    else
      let t := t.writeAll (HandshakeResponse.write_to_buf ⟨methodUnacceptable⟩)
      .error (t, .protocol (.noAcceptableHandshakeMethod socksVersion chosen req.methods))

/-- The outcome of the underlying `write_all` on the socket, an input of the
reply models: `.ok ()` if the OS accepted the frame, `.error e` otherwise. -/
abbrev WriteOutcome := Except IoError Unit

/-- `Connect::<NeedReply>::reply` (`connection/connect.rs:38-50`): build the
`Response` frame, write it; on failure return the error alongside the
original `TcpStream`; on success the `Ready`-stage stream. -/
def Connect.reply (w : WriteOutcome) (s : TcpStream) (r : Reply) (a : Address) :
    Except (IoError × TcpStream) TcpStream :=
  match w with
  | .error e => .error (e, s)
  | .ok _ => .ok { s with sent := s.sent ++ Response.write_to_buf ⟨r, a⟩ }

/-- `Associate::<NeedReply>::reply` (`connection/associate.rs:55-67`): same
shape as `Connect::reply`. -/
def Associate.reply (w : WriteOutcome) (s : TcpStream) (r : Reply) (a : Address) :
    Except (IoError × TcpStream) TcpStream :=
  match w with
  | .error e => .error (e, s)
  | .ok _ => .ok { s with sent := s.sent ++ Response.write_to_buf ⟨r, a⟩ }

/-- `Bind::<NeedFirstReply>::reply` (`connection/bind.rs:51-59`): the error
type is the bare `std::io::Error` — the `TcpStream` is **not** part of the
error value (it is dropped). -/
def Bind.replyFirst (w : WriteOutcome) (s : TcpStream) (r : Reply) (a : Address) :
    Except IoError TcpStream :=
  match w with
  | .error e => .error e
  | .ok _ => .ok { s with sent := s.sent ++ Response.write_to_buf ⟨r, a⟩ }

/-- `Bind::<NeedSecondReply>::reply` (`connection/bind.rs:137-141`): same
shape as the first `Bind` reply. -/
def Bind.replySecond (w : WriteOutcome) (s : TcpStream) (r : Reply) (a : Address) :
    Except IoError TcpStream :=
  match w with
  | .error e => .error e
  | .ok _ => .ok { s with sent := s.sent ++ Response.write_to_buf ⟨r, a⟩ }


/-- `usize` subtraction as compiled in release mode: two's-complement
wrapping on 64 bits (the source's `len - header.serialized_len()` in
`associate.rs` is unguarded). -/
def usizeSub (a b : Nat) : Nat :=
  (a + (2 ^ 64 - b % 2 ^ 64)) % 2 ^ 64

/-- Model of `std::net::SocketAddr` as an opaque peer identity for the UDP
helper (its contents never matter to the framing logic). -/
structure SockAddr where
  id : Nat
  deriving DecidableEq, Repr

/-- `AssociatedUdpSocket::recv` (`connection/associate.rs:240-259`).  The
transport outcome (the datagram the OS delivered, already truncated to the
receive buffer, or the I/O failure) is the input; the function performs the
header parse and payload slicing of the source. -/
def AssociatedUdpSocket.recv (recvOutcome : Except IoError (List Nat)) :
    Except (Error × Option (List Nat)) (List Nat × UdpHeader) :=
  match recvOutcome with
  | .error e => .error (.io e, none)
  | .ok buf =>
    match UdpHeader.read_from buf with
    | (.error e, _) => .error (e, some buf)
    | (.ok header, _) => .ok (buf.drop header.serialized_len, header)

/-- `AssociatedUdpSocket::recv_from` (`connection/associate.rs:264-285`). -/
def AssociatedUdpSocket.recv_from (recvOutcome : Except IoError (List Nat × SockAddr)) :
    Except (Error × Option (List Nat)) (List Nat × UdpHeader × SockAddr) :=
  match recvOutcome with
  | .error e => .error (.io e, none)
  | .ok (buf, addr) =>
    match UdpHeader.read_from buf with
    | (.error e, _) => .error (e, some buf)
    | (.ok header, _) => .ok (buf.drop header.serialized_len, header, addr)

/-- The datagram `AssociatedUdpSocket::send` / `send_to` hand to the socket
(`associate.rs:288-297` / `300-314`): encoded header, then payload. -/
def AssociatedUdpSocket.sendBuf (header : UdpHeader) (pkt : List Nat) : List Nat :=
  header.write_to_buf ++ pkt

/-- `AssociatedUdpSocket::send` (`associate.rs:288-297`): the transport
reports `len` bytes sent; the function returns
`len - header.serialized_len()` (unguarded usize subtraction). -/
def AssociatedUdpSocket.send (header : UdpHeader) (sendOutcome : Except IoError Nat) :
    Except IoError Nat :=
  match sendOutcome with
  | .error e => .error e
  | .ok len => .ok (usizeSub len header.serialized_len)

/-- `AssociatedUdpSocket::send_to` (`associate.rs:300-314`): identical to
`send` except that the datagram goes to an explicit destination. -/
def AssociatedUdpSocket.send_to (header : UdpHeader) (_dst : SockAddr)
    (sendOutcome : Except IoError Nat) : Except IoError Nat :=
  match sendOutcome with
  | .error e => .error e
  | .ok len => .ok (usizeSub len header.serialized_len)

/-! ## The typestate graph

The stage of a negotiation handle and the consuming transitions of the
public API.  Each `step` constructor is one public consuming operation of
the source, identified by its Rust signature:
* `IncomingConnection::authenticate` (`connection/mod.rs:39`) on success;
* `Authenticated::wait_request` (`connection/mod.rs:153`), one constructor
  per command variant it can return;
* `Connect::<NeedReply>::reply` (`connect.rs:38`);
* `Bind::<NeedFirstReply>::reply` (`bind.rs:51`);
* `Bind::<NeedSecondReply>::reply` (`bind.rs:137`);
* `Associate::<NeedReply>::reply` (`associate.rs:55`).
The `Ready` stages expose only raw I/O (`Deref`/`AsyncRead`/`AsyncWrite`),
never another stage handle, so they have no outgoing edges. -/
inductive Stage
  | needAuthenticate
  | needCommand
  | connectNeedReply
  | bindNeedFirstReply
  | bindNeedSecondReply
  | associateNeedReply
  | connectReady
  | bindReady
  | associateReady
  deriving DecidableEq, Repr

/-- The consuming stage transitions offered by the public API (see `Stage`). -/
inductive step : Stage → Stage → Prop
  | authenticate : step .needAuthenticate .needCommand
  | waitConnect : step .needCommand .connectNeedReply
  | waitBind : step .needCommand .bindNeedFirstReply
  | waitAssociate : step .needCommand .associateNeedReply
  | connectReply : step .connectNeedReply .connectReady
  | bindFirstReply : step .bindNeedFirstReply .bindNeedSecondReply
  | bindSecondReply : step .bindNeedSecondReply .bindReady
  | associateReply : step .associateNeedReply .associateReady


theorem readExact_eq_some {n : Nat} {s body rest : List Nat}
    (h : readExact n s = some (body, rest)) :
    body = s.take n ∧ rest = s.drop n ∧ n ≤ s.length := by
  by_cases hn : n ≤ s.length
  · simp [readExact, hn] at h
    exact ⟨h.1.symm, h.2.symm, hn⟩
  · simp [readExact, hn] at h

/-- A successful `Address::read_from` consumes exactly `serialized_len` of its
decoded value: the unread remainder is the input with that prefix dropped. -/
theorem Address.read_consumes_addr {s : List Nat} {a : Address} {rest : List Nat}
    (h : Address.read_from s = (.ok a, rest)) :
    s.drop a.serialized_len = rest := by
  match s with
  | [] => simp [read_from] at h
  | 1 :: s' =>
    simp only [read_from] at h
    cases hre : readExact 6 s' with
    | none => rw [hre] at h; simp at h
    | some p =>
      obtain ⟨body, rest'⟩ := p
      rw [hre] at h
      obtain ⟨hbody, hrest, hlen⟩ := readExact_eq_some hre
      have hbl : body.length = 6 := by
        rw [hbody]; exact List.length_take_of_le hlen
      rcases body with _|⟨b0,_|⟨b1,_|⟨b2,_|⟨b3,_|⟨b4,_|⟨b5,_|⟨b6,body⟩⟩⟩⟩⟩⟩⟩ <;>
          simp at hbl <;> simp at h
      obtain ⟨ha, hr⟩ := h
      subst ha; subst hr
      rw [hrest]
      rfl
  | 3 :: [] => simp [read_from] at h
  | 3 :: len :: s'' =>
    simp only [read_from] at h
    cases hre : readExact (len + 2) s'' with
    | none => rw [hre] at h; simp at h
    | some p =>
      obtain ⟨body, rest'⟩ := p
      rw [hre] at h
      obtain ⟨hbody, hrest, hlen⟩ := readExact_eq_some hre
      have hbl : body.length = len + 2 := by
        rw [hbody]; exact List.length_take_of_le hlen
      by_cases hv : validUtf8 (body.take len) = true
      · simp [hv] at h
        obtain ⟨ha, hr⟩ := h
        subst ha; subst hr
        have hll : (body.take len).length = len := by
          simp [List.length_take, hbl]
        simp only [serialized_len, hll]
        rw [hrest]
        have h14 : 1 + (1 + len + 2) = (len + 2) + 2 := by omega
        rw [h14]
        simp [List.drop_drop]
      · simp [hv] at h
  | 4 :: s' =>
    simp only [read_from] at h
    cases hre : readExact 18 s' with
    | none => rw [hre] at h; simp at h
    | some p =>
      obtain ⟨body, rest'⟩ := p
      rw [hre] at h
      obtain ⟨hbody, hrest, hlen⟩ := readExact_eq_some hre
      have hbl : body.length = 18 := by
        rw [hbody]; exact List.length_take_of_le hlen
      rcases body with _|⟨c0,_|⟨c1,_|⟨c2,_|⟨c3,_|⟨c4,_|⟨c5,_|⟨c6,_|⟨c7,_|⟨c8,_|⟨c9,_|⟨c10,_|⟨c11,_|⟨c12,_|⟨c13,_|⟨c14,_|⟨c15,_|⟨c16,_|⟨c17,_|⟨c18,body⟩⟩⟩⟩⟩⟩⟩⟩⟩⟩⟩⟩⟩⟩⟩⟩⟩⟩⟩ <;>
          simp at hbl <;> simp at h
      obtain ⟨ha, hr⟩ := h
      subst ha; subst hr
      rw [hrest]
      rfl
  | 0 :: s' => simp [read_from] at h
  | 2 :: s' => simp [read_from] at h
  | (n+5) :: s' => simp [read_from] at h

/-- A successful `UdpHeader::read_from` consumes exactly `serialized_len`
bytes. -/
theorem UdpHeader.read_consumes_udp {s : List Nat} {u : UdpHeader} {rest : List Nat}
    (h : UdpHeader.read_from s = (.ok u, rest)) :
    s.drop u.serialized_len = rest := by
  match s with
  | [] => simp [read_from] at h
  | [_] => simp [read_from] at h
  | [_, _] => simp [read_from] at h
  | r0 :: r1 :: frag :: s2 =>
    simp only [read_from] at h
    rcases ha : Address.read_from s2 with ⟨res, s3⟩
    rw [ha] at h
    cases res with
    | error e => cases e <;> simp at h
    | ok addr =>
      simp at h
      obtain ⟨hu, hr⟩ := h
      subst hu; subst hr
      have hcons := Address.read_consumes_addr ha
      simp only [serialized_len]
      have harith : 2 + 1 + addr.serialized_len = 3 + addr.serialized_len := by omega
      rw [harith, ← List.drop_drop]
      simpa using hcons


/-- Helper for C2: decoding a domain-typed wire fragment
`0x03 | L | label | port` checks the label's UTF-8 validity and nothing
else. -/
theorem Address.read_domain_wire (label : List Nat) (hi lo : Nat) (rest : List Nat) :
    Address.read_from (0x03 :: label.length :: (label ++ [hi, lo] ++ rest)) =
      if validUtf8 label then (.ok (.domain label (hi * 256 + lo)), rest)
      else (.error .invalidAddressEncoding, rest) := by
  have hkey : readExact (label.length + 2) (label ++ [hi, lo] ++ rest)
      = some (label ++ [hi, lo], rest) := by
    have := readExact_append (label ++ [hi, lo]) rest
    simpa [List.length_append] using this
  have htake : (label ++ [hi, lo]).take label.length = label := List.take_left label _
  have hdrop : (label ++ [hi, lo]).drop label.length = [hi, lo] := List.drop_left label _
  simp only [read_from, List.append_assoc] at *
  rw [hkey]
  simp only [htake, hdrop]

/-- C1: decoding inverts encoding for every frame type — `Address` (all three
variants), `Request`, `Response`, `UdpHeader`, `MethodRequest`
(`HandshakeRequest`), `MethodResponse` (`HandshakeResponse`),
`PasswordRequest` and `PasswordResponse`; the hypotheses are the field
bounds imposed by the Rust types (`u8`/`u16` fields, method / username /
password / domain-label lists that fit their one-byte length prefixes). -/
theorem claim_C1_roundtrip :
    (∀ (a : Address) (rest : List Nat), a.Wf →
      Address.read_from (a.write_to_buf ++ rest) = (.ok a, rest)) ∧
    (∀ (r : Request) (rest : List Nat), r.address.Wf →
      Request.read_from (r.write_to_buf ++ rest) = (.ok r, rest)) ∧
    (∀ (r : Response) (rest : List Nat), r.address.Wf →
      Response.read_from (r.write_to_buf ++ rest) = (.ok r, rest)) ∧
    (∀ (u : UdpHeader) (rest : List Nat), u.address.Wf →
      UdpHeader.read_from (u.write_to_buf ++ rest) = (.ok u, rest)) ∧
    (∀ (r : HandshakeRequest) (rest : List Nat), r.methods.length ≤ 255 →
      HandshakeRequest.read_from (r.write_to_buf ++ rest) = (.ok r, rest)) ∧
    (∀ (r : HandshakeResponse) (rest : List Nat),
      HandshakeResponse.read_from (r.write_to_buf ++ rest) = (.ok r, rest)) ∧
    (∀ (r : PasswordRequest) (rest : List Nat),
      r.username.length ≤ 255 → r.password.length ≤ 255 →
      PasswordRequest.read_from (r.write_to_buf ++ rest) = (.ok r, rest)) ∧
    (∀ (r : PasswordResponse) (rest : List Nat),
      PasswordResponse.read_from (r.write_to_buf ++ rest) = (.ok r, rest)) :=
  ⟨fun a rest h => Address.read_write_addr a h rest,
    fun r rest h => Request.read_write_request r h rest,
    fun r rest h => Response.read_write_response r h rest,
    fun u rest h => UdpHeader.read_write_udp u h rest,
    fun r rest h => HandshakeRequest.read_write_request_handshake_request r h rest,
    fun r rest => HandshakeResponse.read_write_response_handshake_response r rest,
    fun r rest hu hp => PasswordRequest.read_write_request_password_request r hu hp rest,
    fun r rest => PasswordResponse.read_write_response_password_response r rest⟩

/-- Witness for C1 at concrete frames of every type (a domain address with a
two-byte label, a V4 connect request, a V6 response, a UDP header, a
two-method handshake request, a handshake response, a password request and
both password responses). -/
theorem claim_C1_roundtrip_witness :
    Address.read_from ((Address.domain [104, 105] 80).write_to_buf ++ [7]) =
      (.ok (.domain [104, 105] 80), [7]) ∧
    Request.read_from ((Request.mk .connect (.v4 127 0 0 1 80)).write_to_buf ++ []) =
      (.ok (Request.mk .connect (.v4 127 0 0 1 80)), []) ∧
    Response.read_from
        ((Response.mk .succeeded (.v6 0 0 0 0 0 0 0 1 443)).write_to_buf ++ [1]) =
      (.ok (Response.mk .succeeded (.v6 0 0 0 0 0 0 0 1 443)), [1]) ∧
    UdpHeader.read_from ((UdpHeader.mk 0 (.v4 8 8 8 8 53)).write_to_buf ++ [65]) =
      (.ok (UdpHeader.mk 0 (.v4 8 8 8 8 53)), [65]) ∧
    HandshakeRequest.read_from ((HandshakeRequest.mk [0, 2]).write_to_buf ++ []) =
      (.ok (HandshakeRequest.mk [0, 2]), []) ∧
    HandshakeResponse.read_from ((HandshakeResponse.mk 0).write_to_buf ++ [1]) =
      (.ok (HandshakeResponse.mk 0), [1]) ∧
    PasswordRequest.read_from
        ((PasswordRequest.mk [117, 115, 101, 114] [112, 97, 115, 115]).write_to_buf ++ []) =
      (.ok (PasswordRequest.mk [117, 115, 101, 114] [112, 97, 115, 115]), []) ∧
    PasswordResponse.read_from ((PasswordResponse.mk true).write_to_buf ++ []) =
      (.ok (PasswordResponse.mk true), []) :=
  ⟨claim_C1_roundtrip.1 _ [7] (by decide),
    claim_C1_roundtrip.2.1 _ [] (by decide),
    claim_C1_roundtrip.2.2.1 _ [1] (by decide),
    claim_C1_roundtrip.2.2.2.1 _ [65] (by decide),
    claim_C1_roundtrip.2.2.2.2.1 _ [] (by decide),
    claim_C1_roundtrip.2.2.2.2.2.1 _ [1],
    claim_C1_roundtrip.2.2.2.2.2.2.1 _ [] (by decide) (by decide),
    claim_C1_roundtrip.2.2.2.2.2.2.2 _ []⟩


/-- C2 (counterexample): on the wire fragment `03 02 FF FE 00 50` — a
domain-typed address whose two label bytes `FF FE` are not valid UTF-8 —
`Address::read_from` does **not** succeed with a domain address preserving
the raw bytes; it rejects with the `InvalidData` error of
`String::from_utf8` (`address.rs:76-84`). -/
theorem claim_C2_counterexample :
    (Address.read_from [0x03, 0x02, 0xFF, 0xFE, 0x00, 0x50]).1 ≠
      Except.ok (Address.domain [0xFF, 0xFE] 80) ∧
    Address.read_from [0x03, 0x02, 0xFF, 0xFE, 0x00, 0x50] =
      (.error .invalidAddressEncoding, []) := by
  constructor
  · rw [show Address.read_from [0x03, 0x02, 0xFF, 0xFE, 0x00, 0x50] =
      (.error .invalidAddressEncoding, []) from rfl]
    simp
  · rfl

/-- C2 (amended): the decoder accepts a domain label exactly when its bytes
are valid UTF-8.  A valid-UTF-8 label is decoded preserving the raw bytes
and re-encoding reproduces the original wire bytes; a non-UTF-8 label is
rejected with the `InvalidData` error. -/
theorem claim_C2_utf8_policy :
    (∀ (label : List Nat) (hi lo : Nat) (rest : List Nat),
      label.length ≤ 255 → hi < 256 → lo < 256 → validUtf8 label = true →
      Address.read_from (0x03 :: label.length :: (label ++ [hi, lo] ++ rest)) =
        (.ok (.domain label (hi * 256 + lo)), rest) ∧
      Address.write_to_buf (.domain label (hi * 256 + lo)) =
        0x03 :: label.length :: (label ++ [hi, lo])) ∧
    (∀ (label : List Nat) (hi lo : Nat) (rest : List Nat),
      validUtf8 label = false →
      Address.read_from (0x03 :: label.length :: (label ++ [hi, lo] ++ rest)) =
        (.error .invalidAddressEncoding, rest)) := by
  constructor
  · intro label hi lo rest hlen hhi hlo hv
    constructor
    · rw [Address.read_domain_wire, if_pos hv]
    · simp only [Address.write_to_buf]
      have h1 : label.length % 256 = label.length := Nat.mod_eq_of_lt (by omega)
      have h2 : (hi * 256 + lo) / 256 = hi := by omega
      have h3 : (hi * 256 + lo) % 256 = lo := by omega
      rw [h1, h2, h3]
  · intro label hi lo rest hv
    rw [Address.read_domain_wire, if_neg (by simp [hv])]

/-- Witness for C2 (amended) at the label `"hi"` (`68 69`) with port `80`
and at the non-UTF-8 label `FF FE`. -/
theorem claim_C2_utf8_policy_witness :
    (Address.read_from (0x03 :: 2 :: ([104, 105] ++ [0, 80] ++ [])) =
      (.ok (.domain [104, 105] 80), []) ∧
      Address.write_to_buf (.domain [104, 105] 80) =
        0x03 :: 2 :: ([104, 105] ++ [0, 80])) ∧
    Address.read_from (0x03 :: 2 :: ([0xFF, 0xFE] ++ [0, 80] ++ [])) =
      (.error .invalidAddressEncoding, []) :=
  ⟨by
    have := claim_C2_utf8_policy.1 [104, 105] 0 80 [] (by decide) (by decide) (by decide)
      (by decide)
    simpa using this,
    by
    have := claim_C2_utf8_policy.2 [0xFF, 0xFE] 0 80 [] (by decide)
    simpa using this⟩

/-- C3: for every frame type, `serialized_len` is exactly the number of bytes
`write_to_buf` appends; the two extra conjuncts spell out the boundary
domain labels of length 1 and 255. -/
theorem claim_C3_serialized_len :
    (∀ a : Address, a.write_to_buf.length = a.serialized_len) ∧
    (∀ r : Request, r.write_to_buf.length = r.serialized_len) ∧
    (∀ r : Response, r.write_to_buf.length = r.serialized_len) ∧
    (∀ u : UdpHeader, u.write_to_buf.length = u.serialized_len) ∧
    (∀ r : HandshakeRequest, r.write_to_buf.length = r.serialized_len) ∧
    (∀ r : HandshakeResponse, r.write_to_buf.length = r.serialized_len) ∧
    (∀ r : PasswordRequest, r.write_to_buf.length = r.serialized_len) ∧
    (∀ r : PasswordResponse, r.write_to_buf.length = r.serialized_len) ∧
    (Address.domain (List.replicate 1 97) 80).write_to_buf.length =
      (Address.domain (List.replicate 1 97) 80).serialized_len ∧
    (Address.domain (List.replicate 255 97) 80).write_to_buf.length =
      (Address.domain (List.replicate 255 97) 80).serialized_len :=
  ⟨Address.length_write_addr, Request.length_write_request, Response.length_write_response,
    UdpHeader.length_write_udp, HandshakeRequest.length_write_request_handshake_request, HandshakeResponse.length_write_response_handshake_response,
    PasswordRequest.length_write_request_password_request, PasswordResponse.length_write_response_password_response,
    Address.length_write_addr _, Address.length_write_addr _⟩


/-- C4 (counterexample): the handshake method-selection decoder
(`HandshakeResponse::read_from`, `handshake/response.rs:25-41`) does not
produce the structured `ProtocolVersion` protocol error the claim names for
every version-checked decoder: fed `04 00` it fails with a plain
`std::io::Error` of kind `Unsupported` (modelled `IoError.unsupportedVersion
4`) — its error type (`std::io::Result`) cannot even carry a
`ProtocolError::ProtocolVersion` value. -/
theorem claim_C4_counterexample :
    HandshakeResponse.read_from [0x04, 0x00] = (.error (.unsupportedVersion 4), [0x00]) ∧
    Request.read_from [0x04, 0x00] = (.error (.protocol (.protocolVersion 4)), [0x00]) :=
  ⟨rfl, rfl⟩

/-- C4 (amended): every version-checked decoder consumes only the version
byte on a mismatch; `MethodRequest`, `Request` and `Response` reject with
`Protocol(ProtocolVersion { version: v })`, while the handshake
`MethodResponse` decoder rejects with an `Unsupported` I/O error carrying
`v`. -/
theorem claim_C4_version_check :
    (∀ (v : Nat) (rest : List Nat), v ≠ socksVersion →
      HandshakeRequest.read_from (v :: rest) =
        (.error (.protocol (.protocolVersion v)), rest)) ∧
    (∀ (v : Nat) (rest : List Nat), v ≠ socksVersion →
      Request.read_from (v :: rest) = (.error (.protocol (.protocolVersion v)), rest)) ∧
    (∀ (v : Nat) (rest : List Nat), v ≠ socksVersion →
      Response.read_from (v :: rest) = (.error (.protocol (.protocolVersion v)), rest)) ∧
    (∀ (v : Nat) (rest : List Nat), v ≠ socksVersion →
      HandshakeResponse.read_from (v :: rest) = (.error (.unsupportedVersion v), rest)) := by
  refine ⟨?_, ?_, ?_, ?_⟩ <;>
    · intro v rest hv
      simp [HandshakeRequest.read_from, Request.read_from, Response.read_from,
        HandshakeResponse.read_from, hv]

/-- Witness for C4 (amended) at version byte `0x04`. -/
theorem claim_C4_version_check_witness :
    HandshakeRequest.read_from [0x04, 0x01, 0x00] =
      (.error (.protocol (.protocolVersion 4)), [0x01, 0x00]) ∧
    Request.read_from [0x04] = (.error (.protocol (.protocolVersion 4)), []) ∧
    Response.read_from [0x04] = (.error (.protocol (.protocolVersion 4)), []) ∧
    HandshakeResponse.read_from [0x04, 0x00] = (.error (.unsupportedVersion 4), [0x00]) :=
  ⟨claim_C4_version_check.1 4 [0x01, 0x00] (by decide),
    claim_C4_version_check.2.1 4 [] (by decide),
    claim_C4_version_check.2.2.1 4 [] (by decide),
    claim_C4_version_check.2.2.2 4 [0x00] (by decide)⟩

/-- C6: the method-list decoder reads one count byte and then exactly that
many method bytes, returned in wire order; a zero count yields the empty
list with nothing further consumed. -/
theorem claim_C6_method_list :
    (∀ (ms rest : List Nat), ms.length ≤ 255 →
      HandshakeRequest.read_from (socksVersion :: ms.length :: (ms ++ rest)) =
        (.ok ⟨ms⟩, rest)) ∧
    (∀ rest : List Nat,
      HandshakeRequest.read_from (socksVersion :: 0 :: rest) = (.ok ⟨[]⟩, rest)) := by
  constructor
  · intro ms rest _
    simp [HandshakeRequest.read_from, readExact_append]
  · intro rest
    have h0 : readExact 0 rest = some ([], rest) := by simp [readExact]
    simp [HandshakeRequest.read_from, h0]

/-- Witness for C6: the two-method list `[0x01, 0x02]` and the empty list. -/
theorem claim_C6_method_list_witness :
    HandshakeRequest.read_from (socksVersion :: 2 :: ([0x01, 0x02] ++ [9])) =
      (.ok ⟨[0x01, 0x02]⟩, [9]) ∧
    HandshakeRequest.read_from (socksVersion :: 0 :: [7, 8]) = (.ok ⟨[]⟩, [7, 8]) :=
  ⟨by
    have := claim_C6_method_list.1 [0x01, 0x02] [9] (by decide)
    simpa using this,
    claim_C6_method_list.2 [7, 8]⟩


/-- C5: `IncomingConnection::authenticate` reads the method-list frame; when
the offered methods contain the contract's chosen method it writes
`05 | chosen`, runs the contract's `execute`, and yields the `NeedCommand`
(`Authenticated`) handle with the contract's output; otherwise it writes
`05 | FF` and surrenders the raw transport with
`NoAcceptableHandshakeMethod` carrying the chosen method and the offered
list. -/
theorem claim_C5_authenticate (O : Type) (auth : AuthAdaptor O) (t : Transport)
    (req : HandshakeRequest) (rest : List Nat)
    (hread : HandshakeRequest.read_from t.input = (.ok req, rest)) :
    (req.methods.contains auth.chosenMethod = true →
      IncomingConnection.authenticate auth t =
        (let t1 := Transport.writeAll { t with input := rest }
          [socksVersion, auth.chosenMethod]
         let r := auth.execute t1
         .ok (⟨r.2⟩, r.1))) ∧
    (req.methods.contains auth.chosenMethod = false →
      IncomingConnection.authenticate auth t =
        .error (Transport.writeAll { t with input := rest }
            [socksVersion, methodUnacceptable],
          .protocol (.noAcceptableHandshakeMethod socksVersion auth.chosenMethod
            req.methods))) := by
  constructor
  · intro hc
    have hm : auth.chosenMethod ∈ req.methods := List.mem_of_elem_eq_true hc
    simp [IncomingConnection.authenticate, hread, hm, HandshakeResponse.write_to_buf]
  · intro hc
    have hm : auth.chosenMethod ∉ req.methods := fun hmem => by
      have htrue : req.methods.contains auth.chosenMethod = true :=
        List.elem_eq_true_of_mem hmem
      rw [htrue] at hc
      cases hc
    simp [IncomingConnection.authenticate, hread, hm, HandshakeResponse.write_to_buf]

/-- Witness for C5: a `NoAuth`-style contract (chosen method `0x00`, output
`42`) against the wire bytes `05 01 00`, and the same contract against
`05 02 01 02` (GSSAPI and Password offered, `NoAuth` chosen). -/
theorem claim_C5_authenticate_witness :
    IncomingConnection.authenticate
        (AuthAdaptor.mk 0 (fun t => (42, t)) : AuthAdaptor Nat)
        (Transport.mk [5, 1, 0] (TcpStream.mk 7 [])) =
      .ok (⟨Transport.mk [] (TcpStream.mk 7 [5, 0])⟩, 42) ∧
    IncomingConnection.authenticate
        (AuthAdaptor.mk 0 (fun t => (42, t)) : AuthAdaptor Nat)
        (Transport.mk [5, 2, 1, 2] (TcpStream.mk 7 [])) =
      .error (Transport.mk [] (TcpStream.mk 7 [5, 0xff]),
        .protocol (.noAcceptableHandshakeMethod 5 0 [1, 2])) := by
  constructor
  · have := (claim_C5_authenticate Nat (AuthAdaptor.mk 0 (fun t => (42, t)))
      (Transport.mk [5, 1, 0] (TcpStream.mk 7 [])) ⟨[0]⟩ [] rfl).1 (by decide)
    simpa [Transport.writeAll, socksVersion] using this
  · have := (claim_C5_authenticate Nat (AuthAdaptor.mk 0 (fun t => (42, t)))
      (Transport.mk [5, 2, 1, 2] (TcpStream.mk 7 [])) ⟨[1, 2]⟩ [] rfl).2 (by decide)
    simpa [Transport.writeAll, socksVersion, methodUnacceptable] using this

/-- C7 (counterexample): when the write of the first `Bind` reply fails, the
returned error is the bare I/O error — the result does not contain the
`TcpStream` at all (two different streams produce the *same* error value),
so the transport is dropped, not surrendered; `Connect::reply` by contrast
returns a different value for each stream, because the stream is packaged
with the error. -/
theorem claim_C7_counterexample :
    Bind.replyFirst (.error .unexpectedEof) (TcpStream.mk 0 []) .succeeded (.v4 0 0 0 0 0) =
      Bind.replyFirst (.error .unexpectedEof) (TcpStream.mk 1 []) .succeeded
        (.v4 0 0 0 0 0) ∧
    Connect.reply (.error .unexpectedEof) (TcpStream.mk 0 []) .succeeded (.v4 0 0 0 0 0) ≠
      Connect.reply (.error .unexpectedEof) (TcpStream.mk 1 []) .succeeded
        (.v4 0 0 0 0 0) := by
  constructor
  · rfl
  · simp [Connect.reply]

/-- C7 (amended): on a failed reply write, `Connect::<NeedReply>::reply` and
`Associate::<NeedReply>::reply` consume the handle and surrender the
`TcpStream` alongside the error; `Bind::<NeedFirstReply>::reply` and
`Bind::<NeedSecondReply>::reply` consume the handle but return the bare
error — their `TcpStream` is dropped, not surrendered. -/
theorem claim_C7_write_error_paths :
    (∀ (e : IoError) (s : TcpStream) (r : Reply) (a : Address),
      Connect.reply (.error e) s r a = .error (e, s)) ∧
    (∀ (e : IoError) (s : TcpStream) (r : Reply) (a : Address),
      Associate.reply (.error e) s r a = .error (e, s)) ∧
    (∀ (e : IoError) (s : TcpStream) (r : Reply) (a : Address),
      Bind.replyFirst (.error e) s r a = .error e) ∧
    (∀ (e : IoError) (s : TcpStream) (r : Reply) (a : Address),
      Bind.replySecond (.error e) s r a = .error e) :=
  ⟨fun _ _ _ _ => rfl, fun _ _ _ _ => rfl, fun _ _ _ _ => rfl, fun _ _ _ _ => rfl⟩


/-- C8: `AssociatedUdpSocket::recv` and `recv_from` return `(Io(err), None)`
when the datagram transport fails; when a datagram arrives but its SOCKS5
UDP header does not parse they return the parse error with the raw
datagram; on success the payload is the datagram with exactly the first
`header.serialized_len()` bytes removed — and that cut coincides with the
parser's stopping point (`buf.drop h.serialized_len` is the unconsumed
remainder of the parse). -/
theorem claim_C8_recv :
    (∀ e : IoError, AssociatedUdpSocket.recv (.error e) = .error (.io e, none)) ∧
    (∀ (buf : List Nat) (e : Error) (s : List Nat),
      UdpHeader.read_from buf = (.error e, s) →
      AssociatedUdpSocket.recv (.ok buf) = .error (e, some buf)) ∧
    (∀ (buf : List Nat) (h : UdpHeader) (s : List Nat),
      UdpHeader.read_from buf = (.ok h, s) →
      AssociatedUdpSocket.recv (.ok buf) = .ok (buf.drop h.serialized_len, h) ∧
        buf.drop h.serialized_len = s) ∧
    (∀ e : IoError,
      AssociatedUdpSocket.recv_from (.error e) = .error (.io e, none)) ∧
    (∀ (buf : List Nat) (a : SockAddr) (e : Error) (s : List Nat),
      UdpHeader.read_from buf = (.error e, s) →
      AssociatedUdpSocket.recv_from (.ok (buf, a)) = .error (e, some buf)) ∧
    (∀ (buf : List Nat) (a : SockAddr) (h : UdpHeader) (s : List Nat),
      UdpHeader.read_from buf = (.ok h, s) →
      AssociatedUdpSocket.recv_from (.ok (buf, a)) =
        .ok (buf.drop h.serialized_len, h, a) ∧
        buf.drop h.serialized_len = s) := by
  refine ⟨fun e => rfl, ?_, ?_, fun e => rfl, ?_, ?_⟩
  · intro buf e s hp
    simp [AssociatedUdpSocket.recv, hp]
  · intro buf h s hp
    exact ⟨by simp [AssociatedUdpSocket.recv, hp], UdpHeader.read_consumes_udp hp⟩
  · intro buf a e s hp
    simp [AssociatedUdpSocket.recv_from, hp]
  · intro buf a h s hp
    exact ⟨by simp [AssociatedUdpSocket.recv_from, hp], UdpHeader.read_consumes_udp hp⟩

/-- Witness for C8: the header-parse failure of spec scenario 5
(`00 00 00 02 …`, address type 2) and a successful V4-header datagram with
three payload bytes. -/
theorem claim_C8_recv_witness :
    AssociatedUdpSocket.recv
        (.ok [0, 0, 0, 2, 8, 8, 8, 8, 0, 53, 65, 66, 67]) =
      .error (.protocol (.invalidAddressTypeInUdpHeader 0 2),
        some [0, 0, 0, 2, 8, 8, 8, 8, 0, 53, 65, 66, 67]) ∧
    AssociatedUdpSocket.recv
        (.ok [0, 0, 0, 1, 8, 8, 8, 8, 0, 53, 65, 66, 67]) =
      .ok ([65, 66, 67], UdpHeader.mk 0 (.v4 8 8 8 8 53)) := by
  constructor
  · exact claim_C8_recv.2.1 [0, 0, 0, 2, 8, 8, 8, 8, 0, 53, 65, 66, 67]
      (.protocol (.invalidAddressTypeInUdpHeader 0 2)) [8, 8, 8, 8, 0, 53, 65, 66, 67] rfl
  · have := (claim_C8_recv.2.2.1 [0, 0, 0, 1, 8, 8, 8, 8, 0, 53, 65, 66, 67]
      (UdpHeader.mk 0 (.v4 8 8 8 8 53)) [65, 66, 67] rfl).1
    simpa using this

/-- C9: in the stage graph of the negotiation API, a `Connect.Ready` handle
arises only from `Connect.reply` on `Connect.NeedReply`, `Bind.Ready` only
from the second `Bind` reply, the second-reply stage only from the first,
and no operation consumes a `Ready` handle — so `reply` cannot be called
twice on a Connect handle and the second Bind reply cannot be skipped. -/
theorem claim_C9_typestate :
    (∀ s : Stage, step s .connectReady → s = .connectNeedReply) ∧
    (∀ s : Stage, step s .bindReady → s = .bindNeedSecondReply) ∧
    (∀ s : Stage, step s .bindNeedSecondReply → s = .bindNeedFirstReply) ∧
    (∀ s : Stage, step s .associateReady → s = .associateNeedReply) ∧
    (∀ s : Stage, ¬ step .connectReady s) ∧
    (∀ s : Stage, ¬ step .bindReady s) ∧
    (∀ s : Stage, ¬ step .associateReady s) := by
  refine ⟨?_, ?_, ?_, ?_, ?_, ?_, ?_⟩ <;> intro s h <;> cases h <;> rfl

/-- Witness for C9: the inversion laws applied to the actual transitions. -/
theorem claim_C9_typestate_witness :
    Stage.connectNeedReply = Stage.connectNeedReply ∧
    Stage.bindNeedSecondReply = Stage.bindNeedSecondReply ∧
    Stage.bindNeedFirstReply = Stage.bindNeedFirstReply :=
  ⟨claim_C9_typestate.1 .connectNeedReply step.connectReply,
    claim_C9_typestate.2.1 .bindNeedSecondReply step.bindSecondReply,
    claim_C9_typestate.2.2.1 .bindNeedFirstReply step.bindFirstReply⟩

/-- C10: `send` / `send_to` hand the socket the encoded header followed by
the payload, and return `n - header.serialized_len()` where `n` is the byte
count the transport reports; the subtraction is unguarded wrapping `usize`
arithmetic, so the result equals the payload length exactly under the
precondition `n ≥ serialized_len` with `n = serialized_len + |payload|`. -/
theorem claim_C10_send :
    (∀ (h : UdpHeader) (p : List Nat),
      AssociatedUdpSocket.sendBuf h p = h.write_to_buf ++ p ∧
      (AssociatedUdpSocket.sendBuf h p).length = h.serialized_len + p.length ∧
      (AssociatedUdpSocket.sendBuf h p).take h.serialized_len = h.write_to_buf ∧
      (AssociatedUdpSocket.sendBuf h p).drop h.serialized_len = p) ∧
    (∀ (h : UdpHeader) (n : Nat), h.serialized_len ≤ n → n < 2 ^ 64 →
      AssociatedUdpSocket.send h (.ok n) = .ok (n - h.serialized_len) ∧
      ∀ d : SockAddr, AssociatedUdpSocket.send_to h d (.ok n) =
        .ok (n - h.serialized_len)) ∧
    (∀ (h : UdpHeader) (p : List Nat) (n : Nat),
      n = h.serialized_len + p.length → n < 2 ^ 64 →
      AssociatedUdpSocket.send h (.ok n) = .ok p.length ∧
      ∀ d : SockAddr, AssociatedUdpSocket.send_to h d (.ok n) = .ok p.length) := by
  have husize : ∀ a b : Nat, b ≤ a → a < 2 ^ 64 → usizeSub a b = a - b := by
    intro a b hba ha
    have hb : b < 2 ^ 64 := lt_of_le_of_lt hba ha
    simp only [usizeSub, Nat.mod_eq_of_lt hb]
    omega
  refine ⟨?_, ?_, ?_⟩
  · intro h p
    refine ⟨rfl, ?_, ?_, ?_⟩
    · simp [AssociatedUdpSocket.sendBuf, UdpHeader.length_write_udp]
    · rw [AssociatedUdpSocket.sendBuf, ← UdpHeader.length_write_udp h]
      exact List.take_left _ _
    · rw [AssociatedUdpSocket.sendBuf, ← UdpHeader.length_write_udp h]
      exact List.drop_left _ _
  · intro h n hle hlt
    exact ⟨by simp [AssociatedUdpSocket.send, husize n h.serialized_len hle hlt],
      fun d => by simp [AssociatedUdpSocket.send_to, husize n h.serialized_len hle hlt]⟩
  · intro h p n hn hlt
    subst hn
    have hle : h.serialized_len ≤ h.serialized_len + p.length := Nat.le_add_right _ _
    constructor
    · simp [AssociatedUdpSocket.send, husize _ _ hle hlt]
    · intro d
      simp [AssociatedUdpSocket.send_to, husize _ _ hle hlt]

/-- Witness for C10: a V4 header (10 wire bytes) with a three-byte payload
and a transport reporting all 13 bytes sent. -/
theorem claim_C10_send_witness :
    AssociatedUdpSocket.send (UdpHeader.mk 0 (.v4 8 8 8 8 53)) (.ok 13) = .ok 3 ∧
    AssociatedUdpSocket.send_to (UdpHeader.mk 0 (.v4 8 8 8 8 53)) (SockAddr.mk 1)
      (.ok 13) = .ok 3 := by
  have := claim_C10_send.2.2 (UdpHeader.mk 0 (.v4 8 8 8 8 53)) [65, 66, 67] 13
    (by decide) (by norm_num)
  exact ⟨this.1, this.2 (SockAddr.mk 1)⟩


end Socks5
